import Mathlib

/-!
Verification of the GC2145 sensor driver configuration engine.

Shallow embedding of `src/gc2145.c` (GC2145 CMOS image sensor driver).
Hardware interaction (the i2c transport, gpio lines, clocks and blocking
delays) is modelled by an explicit `Bus` record holding the transport's
response functions and transaction counters, and every driver function
returns, besides its C return value, the ordered list of externally
observable `Event`s it produced.

Register tables are transcribed verbatim from the source (the live
branches of the `#if 1 / #else` blocks).
-/

set_option maxRecDepth 8000
set_option autoImplicit false

namespace GC2145

/-! ## Constants from the source and the kernel headers it uses -/

/-- Errno EINVAL; `-EINVAL` is returned as `-22` by the driver; we keep the positive
errno value and negate at use sites, as the C code does. -/
def EINVAL : Int := 22

/-- errno for "no such device or address"; the driver returns `-ENXIO`
from the chip-id check. -/
def ENXIO_err : Int := 6

def GC2145_CHIP_ID : Nat := 0x2145

/-- Page-0 register addresses (enum at the top of the source). -/
def GC2145_REG_OUTPUT_FORMAT : Nat := 0x84
def GC2145_REG_CHIP_ID_H : Nat := 0xF0
def GC2145_REG_CHIP_ID_L : Nat := 0xF1
def GC2145_REG_PAGE_SELECT : Nat := 0xFE
/-- Array end token / delay sentinel address. -/
def GC2145_REG_NULL : Nat := 0xFF

def GC2145_OUTPUT_FMT_UYVY : Nat := 0x00
def GC2145_OUTPUT_FMT_VYUY : Nat := 0x01
def GC2145_OUTPUT_FMT_YUYV : Nat := 0x02
def GC2145_OUTPUT_FMT_YVYU : Nat := 0x03
def GC2145_OUTPUT_FMT_RGB : Nat := 0x06
def GC2145_OUTPUT_FMT_LSC : Nat := 0x19

/-- Media-bus pixel codes (kernel `media-bus-format.h`, used by the driver). -/
def MEDIA_BUS_FMT_RGB565_2X8_BE : Nat := 0x1007
def MEDIA_BUS_FMT_UYVY8_2X8 : Nat := 0x2006
def MEDIA_BUS_FMT_VYUY8_2X8 : Nat := 0x2007
def MEDIA_BUS_FMT_YUYV8_2X8 : Nat := 0x2008
def MEDIA_BUS_FMT_YVYU8_2X8 : Nat := 0x2009
def MEDIA_BUS_FMT_SBGGR8_1X8 : Nat := 0x3001

/-- Kernel colorspace tags used by the driver. -/
def V4L2_COLORSPACE_JPEG : Nat := 7
def V4L2_COLORSPACE_SRGB : Nat := 8
def V4L2_COLORSPACE_RAW : Nat := 11

def V4L2_FIELD_NONE : Nat := 1

/-! ## Data model -/

/-- Embeds `struct gc2145_reg { unsigned char addr; unsigned char val; }`. -/
structure gc2145_reg where
  addr : Nat
  val : Nat
deriving DecidableEq, Repr

/-- Row constructor for the transcribed tables. -/
def r (a v : Nat) : gc2145_reg := ⟨a, v⟩

/-- Externally observable actions of the driver: attempted i2c writes and
reads (with the transaction's success flag and, for reads, the byte
obtained), blocking delays, gpio line updates and the clock disable. -/
inductive Event where
  | wr (addr val : Nat) (ok : Bool)
  | rd (addr val : Nat) (ok : Bool)
  | sleepMs (n : Nat)
  | sleepUs (n : Nat)
  | gpioPwdn (v : Nat)
  | gpioReset (v : Nat)
  | clkOff
  | warn
deriving DecidableEq, Repr

/-- The i2c transport plus its transaction counters.  `wRet n` (resp.
`rRet n`) is the `i2c_transfer` result of the `n`-th write (resp. read)
transaction; a negative value is the transport error.  `rVal n` is the
byte the `n`-th read returns (reduced mod 256, since the C buffer is a
`u8`). -/
structure Bus where
  wRet : Nat → Int
  rRet : Nat → Int
  rVal : Nat → Nat
  nw : Nat
  nr : Nat

/-! ## Register tables (transcribed from the source) -/

def gc2145_init_regs : List gc2145_reg := [
  r 0xfe 0xf0, r 0xfe 0xf0, r 0xfe 0xf0, r 0xfc 0x06, r 0xf6 0x00, r 0xf7 0x1d,
  r 0xf8 0x83, r 0xfa 0x00, r 0xf9 0xfe, r 0xf2 0x00, r 0xfe 0x00, r 0x03 0x04,
  r 0x04 0xe2, r 0x09 0x00, r 0x0a 0x00, r 0x0b 0x00, r 0x0c 0x00, r 0x0d 0x04,
  r 0x0e 0xc0, r 0x0f 0x06, r 0x10 0x52, r 0x12 0x2e, r 0x17 0x17, r 0x18 0x22,
  r 0x19 0x0e, r 0x1a 0x01, r 0x1b 0x4b, r 0x1c 0x07, r 0x1d 0x10, r 0x1e 0x88,
  r 0x1f 0x78, r 0x20 0x03, r 0x21 0x40, r 0x22 0xa0, r 0x24 0x16, r 0x25 0x01,
  r 0x26 0x10, r 0x2d 0x60, r 0x30 0x01, r 0x31 0x90, r 0x33 0x06, r 0x34 0x01,
  r 0xfe 0x00, r 0x80 0x7f, r 0x81 0x26, r 0x82 0xfa, r 0x83 0x00, r 0x84 0x02,
  r 0x86 0x03, r 0x88 0x03, r 0x89 0x03, r 0x85 0x08, r 0x8a 0x00, r 0x8b 0x00,
  r 0xb0 0x55, r 0xc3 0x00, r 0xc4 0x80, r 0xc5 0x90, r 0xc6 0x3b, r 0xc7 0x46,
  r 0xec 0x06, r 0xed 0x04, r 0xee 0x60, r 0xef 0x90, r 0xb6 0x01, r 0x90 0x01,
  r 0x91 0x00, r 0x92 0x00, r 0x93 0x00, r 0x94 0x00, r 0x95 0x04, r 0x96 0xb0,
  r 0x97 0x06, r 0x98 0x40, r 0xfe 0x00, r 0x40 0x42, r 0x41 0x00, r 0x43 0x5b,
  r 0x5e 0x00, r 0x5f 0x00, r 0x60 0x00, r 0x61 0x00, r 0x62 0x00, r 0x63 0x00,
  r 0x64 0x00, r 0x65 0x00, r 0x66 0x20, r 0x67 0x20, r 0x68 0x20, r 0x69 0x20,
  r 0x76 0x00, r 0x6a 0x08, r 0x6b 0x08, r 0x6c 0x08, r 0x6d 0x08, r 0x6e 0x08,
  r 0x6f 0x08, r 0x70 0x08, r 0x71 0x08, r 0x76 0x00, r 0x72 0xf0, r 0x7e 0x3c,
  r 0x7f 0x00, r 0xfe 0x02, r 0x48 0x15, r 0x49 0x00, r 0x4b 0x0b, r 0xfe 0x00,
  r 0xfe 0x01, r 0x01 0x04, r 0x02 0xc0, r 0x03 0x04, r 0x04 0x90, r 0x05 0x30,
  r 0x06 0x90, r 0x07 0x30, r 0x08 0x80, r 0x09 0x00, r 0x0a 0x82, r 0x0b 0x11,
  r 0x0c 0x10, r 0x11 0x10, r 0x13 0x7b, r 0x17 0x00, r 0x1c 0x11, r 0x1e 0x61,
  r 0x1f 0x35, r 0x20 0x40, r 0x22 0x40, r 0x23 0x20, r 0xfe 0x02, r 0x0f 0x04,
  r 0xfe 0x01, r 0x12 0x35, r 0x15 0xb0, r 0x10 0x31, r 0x3e 0x28, r 0x3f 0xb0,
  r 0x40 0x90, r 0x41 0x0f, r 0xfe 0x02, r 0x90 0x6c, r 0x91 0x03, r 0x92 0xcb,
  r 0x94 0x33, r 0x95 0x84, r 0x97 0x65, r 0xa2 0x11, r 0xfe 0x00, r 0xfe 0x02,
  r 0x80 0xc1, r 0x81 0x08, r 0x82 0x05, r 0x83 0x08, r 0x84 0x0a, r 0x86 0xf0,
  r 0x87 0x50, r 0x88 0x15, r 0x89 0xb0, r 0x8a 0x30, r 0x8b 0x10, r 0xfe 0x01,
  r 0x21 0x04, r 0xfe 0x02, r 0xa3 0x50, r 0xa4 0x20, r 0xa5 0x40, r 0xa6 0x80,
  r 0xab 0x40, r 0xae 0x0c, r 0xb3 0x46, r 0xb4 0x64, r 0xb6 0x38, r 0xb7 0x01,
  r 0xb9 0x2b, r 0x3c 0x04, r 0x3d 0x15, r 0x4b 0x06, r 0x4c 0x20, r 0xfe 0x00,
  r 0xfe 0x02, r 0x10 0x09, r 0x11 0x0d, r 0x12 0x13, r 0x13 0x19, r 0x14 0x27,
  r 0x15 0x37, r 0x16 0x45, r 0x17 0x53, r 0x18 0x69, r 0x19 0x7d, r 0x1a 0x8f,
  r 0x1b 0x9d, r 0x1c 0xa9, r 0x1d 0xbd, r 0x1e 0xcd, r 0x1f 0xd9, r 0x20 0xe3,
  r 0x21 0xea, r 0x22 0xef, r 0x23 0xf5, r 0x24 0xf9, r 0x25 0xff, r 0xfe 0x00,
  r 0xc6 0x20, r 0xc7 0x2b, r 0xfe 0x02, r 0x26 0x0f, r 0x27 0x14, r 0x28 0x19,
  r 0x29 0x1e, r 0x2a 0x27, r 0x2b 0x33, r 0x2c 0x3b, r 0x2d 0x45, r 0x2e 0x59,
  r 0x2f 0x69, r 0x30 0x7c, r 0x31 0x89, r 0x32 0x98, r 0x33 0xae, r 0x34 0xc0,
  r 0x35 0xcf, r 0x36 0xda, r 0x37 0xe2, r 0x38 0xe9, r 0x39 0xf3, r 0x3a 0xf9,
  r 0x3b 0xff, r 0xfe 0x02, r 0xd1 0x32, r 0xd2 0x32, r 0xd3 0x40, r 0xd6 0xf0,
  r 0xd7 0x10, r 0xd8 0xda, r 0xdd 0x14, r 0xde 0x86, r 0xed 0x80, r 0xee 0x00,
  r 0xef 0x3f, r 0xd8 0xd8, r 0xfe 0x01, r 0x9f 0x40, r 0xfe 0x01, r 0xc2 0x14,
  r 0xc3 0x0d, r 0xc4 0x0c, r 0xc8 0x15, r 0xc9 0x0d, r 0xca 0x0a, r 0xbc 0x24,
  r 0xbd 0x10, r 0xbe 0x0b, r 0xb6 0x25, r 0xb7 0x16, r 0xb8 0x15, r 0xc5 0x00,
  r 0xc6 0x00, r 0xc7 0x00, r 0xcb 0x00, r 0xcc 0x00, r 0xcd 0x00, r 0xbf 0x07,
  r 0xc0 0x00, r 0xc1 0x00, r 0xb9 0x00, r 0xba 0x00, r 0xbb 0x00, r 0xaa 0x01,
  r 0xab 0x01, r 0xac 0x00, r 0xad 0x05, r 0xae 0x06, r 0xaf 0x0e, r 0xb0 0x0b,
  r 0xb1 0x07, r 0xb2 0x06, r 0xb3 0x17, r 0xb4 0x0e, r 0xb5 0x0e, r 0xd0 0x09,
  r 0xd1 0x00, r 0xd2 0x00, r 0xd6 0x08, r 0xd7 0x00, r 0xd8 0x00, r 0xd9 0x00,
  r 0xda 0x00, r 0xdb 0x00, r 0xd3 0x0a, r 0xd4 0x00, r 0xd5 0x00, r 0xa4 0x00,
  r 0xa5 0x00, r 0xa6 0x77, r 0xa7 0x77, r 0xa8 0x77, r 0xa9 0x77, r 0xa1 0x80,
  r 0xa2 0x80, r 0xfe 0x01, r 0xdf 0x0d, r 0xdc 0x25, r 0xdd 0x30, r 0xe0 0x77,
  r 0xe1 0x80, r 0xe2 0x77, r 0xe3 0x90, r 0xe6 0x90, r 0xe7 0xa0, r 0xe8 0x90,
  r 0xe9 0xa0, r 0xfe 0x00, r 0xfe 0x01, r 0x4f 0x00, r 0x4f 0x00, r 0x4b 0x01,
  r 0x4f 0x00, r 0x4c 0x01, r 0x4d 0x71, r 0x4e 0x01, r 0x4c 0x01, r 0x4d 0x91,
  r 0x4e 0x01, r 0x4c 0x01, r 0x4d 0x70, r 0x4e 0x01, r 0x4c 0x01, r 0x4d 0x90,
  r 0x4e 0x02, r 0x4c 0x01, r 0x4d 0xb0, r 0x4e 0x02, r 0x4c 0x01, r 0x4d 0x8f,
  r 0x4e 0x02, r 0x4c 0x01, r 0x4d 0x6f, r 0x4e 0x02, r 0x4c 0x01, r 0x4d 0xaf,
  r 0x4e 0x02, r 0x4c 0x01, r 0x4d 0xd0, r 0x4e 0x02, r 0x4c 0x01, r 0x4d 0xf0,
  r 0x4e 0x02, r 0x4c 0x01, r 0x4d 0xcf, r 0x4e 0x02, r 0x4c 0x01, r 0x4d 0xef,
  r 0x4e 0x02, r 0x4c 0x01, r 0x4d 0x6e, r 0x4e 0x03, r 0x4c 0x01, r 0x4d 0x8e,
  r 0x4e 0x03, r 0x4c 0x01, r 0x4d 0xae, r 0x4e 0x03, r 0x4c 0x01, r 0x4d 0xce,
  r 0x4e 0x03, r 0x4c 0x01, r 0x4d 0x4d, r 0x4e 0x03, r 0x4c 0x01, r 0x4d 0x6d,
  r 0x4e 0x03, r 0x4c 0x01, r 0x4d 0x8d, r 0x4e 0x03, r 0x4c 0x01, r 0x4d 0xad,
  r 0x4e 0x03, r 0x4c 0x01, r 0x4d 0xcd, r 0x4e 0x03, r 0x4c 0x01, r 0x4d 0x4c,
  r 0x4e 0x03, r 0x4c 0x01, r 0x4d 0x6c, r 0x4e 0x03, r 0x4c 0x01, r 0x4d 0x8c,
  r 0x4e 0x03, r 0x4c 0x01, r 0x4d 0xac, r 0x4e 0x03, r 0x4c 0x01, r 0x4d 0xcc,
  r 0x4e 0x03, r 0x4c 0x01, r 0x4d 0xcb, r 0x4e 0x03, r 0x4c 0x01, r 0x4d 0x4b,
  r 0x4e 0x03, r 0x4c 0x01, r 0x4d 0x6b, r 0x4e 0x03, r 0x4c 0x01, r 0x4d 0x8b,
  r 0x4e 0x03, r 0x4c 0x01, r 0x4d 0xab, r 0x4e 0x03, r 0x4c 0x01, r 0x4d 0x8a,
  r 0x4e 0x04, r 0x4c 0x01, r 0x4d 0xaa, r 0x4e 0x04, r 0x4c 0x01, r 0x4d 0xca,
  r 0x4e 0x04, r 0x4c 0x01, r 0x4d 0xca, r 0x4e 0x04, r 0x4c 0x01, r 0x4d 0xc9,
  r 0x4e 0x04, r 0x4c 0x01, r 0x4d 0x8a, r 0x4e 0x04, r 0x4c 0x01, r 0x4d 0x89,
  r 0x4e 0x04, r 0x4c 0x01, r 0x4d 0xa9, r 0x4e 0x04, r 0x4c 0x02, r 0x4d 0x0b,
  r 0x4e 0x05, r 0x4c 0x02, r 0x4d 0x0a, r 0x4e 0x05, r 0x4c 0x01, r 0x4d 0xeb,
  r 0x4e 0x05, r 0x4c 0x01, r 0x4d 0xea, r 0x4e 0x05, r 0x4c 0x02, r 0x4d 0x09,
  r 0x4e 0x05, r 0x4c 0x02, r 0x4d 0x29, r 0x4e 0x05, r 0x4c 0x02, r 0x4d 0x2a,
  r 0x4e 0x05, r 0x4c 0x02, r 0x4d 0x4a, r 0x4e 0x05, r 0x4c 0x02, r 0x4d 0x8a,
  r 0x4e 0x06, r 0x4c 0x02, r 0x4d 0x49, r 0x4e 0x06, r 0x4c 0x02, r 0x4d 0x69,
  r 0x4e 0x06, r 0x4c 0x02, r 0x4d 0x89, r 0x4e 0x06, r 0x4c 0x02, r 0x4d 0xa9,
  r 0x4e 0x06, r 0x4c 0x02, r 0x4d 0x48, r 0x4e 0x06, r 0x4c 0x02, r 0x4d 0x68,
  r 0x4e 0x06, r 0x4c 0x02, r 0x4d 0x69, r 0x4e 0x06, r 0x4c 0x02, r 0x4d 0xca,
  r 0x4e 0x07, r 0x4c 0x02, r 0x4d 0xc9, r 0x4e 0x07, r 0x4c 0x02, r 0x4d 0xe9,
  r 0x4e 0x07, r 0x4c 0x03, r 0x4d 0x09, r 0x4e 0x07, r 0x4c 0x02, r 0x4d 0xc8,
  r 0x4e 0x07, r 0x4c 0x02, r 0x4d 0xe8, r 0x4e 0x07, r 0x4c 0x02, r 0x4d 0xa7,
  r 0x4e 0x07, r 0x4c 0x02, r 0x4d 0xc7, r 0x4e 0x07, r 0x4c 0x02, r 0x4d 0xe7,
  r 0x4e 0x07, r 0x4c 0x03, r 0x4d 0x07, r 0x4e 0x07, r 0x4f 0x01, r 0x50 0x80,
  r 0x51 0xa8, r 0x52 0x47, r 0x53 0x38, r 0x54 0xc7, r 0x56 0x0e, r 0x58 0x08,
  r 0x5b 0x00, r 0x5c 0x74, r 0x5d 0x8b, r 0x61 0xdb, r 0x62 0xb8, r 0x63 0x86,
  r 0x64 0xc0, r 0x65 0x04, r 0x67 0xa8, r 0x68 0xb0, r 0x69 0x00, r 0x6a 0xa8,
  r 0x6b 0xb0, r 0x6c 0xaf, r 0x6d 0x8b, r 0x6e 0x50, r 0x6f 0x18, r 0x73 0xf0,
  r 0x70 0x0d, r 0x71 0x60, r 0x72 0x80, r 0x74 0x01, r 0x75 0x01, r 0x7f 0x0c,
  r 0x76 0x70, r 0x77 0x58, r 0x78 0xa0, r 0x79 0x5e, r 0x7a 0x54, r 0x7b 0x58,
  r 0xfe 0x00, r 0xfe 0x02, r 0xc0 0x01, r 0xc1 0x44, r 0xc2 0xfd, r 0xc3 0x04,
  r 0xc4 0xF0, r 0xc5 0x48, r 0xc6 0xfd, r 0xc7 0x46, r 0xc8 0xfd, r 0xc9 0x02,
  r 0xca 0xe0, r 0xcb 0x45, r 0xcc 0xec, r 0xcd 0x48, r 0xce 0xf0, r 0xcf 0xf0,
  r 0xe3 0x0c, r 0xe4 0x4b, r 0xe5 0xe0, r 0xfe 0x01, r 0x9f 0x40, r 0xfe 0x00,
  r 0xfe 0x00, r 0xf2 0x0f, r 0xfe 0x02, r 0x40 0xbf, r 0x46 0xcf, r 0xfe 0x00,
  r 0xfe 0x00, r 0x05 0x01, r 0x06 0x56, r 0x07 0x00, r 0x08 0x32, r 0xfe 0x01,
  r 0x25 0x00, r 0x26 0xfa, r 0x27 0x04, r 0x28 0xe2, r 0x29 0x06, r 0x2a 0xd6,
  r 0x2b 0x07, r 0x2c 0xd0, r 0x2d 0x0b, r 0x2e 0xb8, r 0xfe 0x00, r 0xfe 0x00,
  r 0xfd 0x01, r 0xfa 0x00, r 0xfe 0x00, r 0x90 0x01, r 0x91 0x00, r 0x92 0x00,
  r 0x93 0x00, r 0x94 0x00, r 0x95 0x02, r 0x96 0x58, r 0x97 0x03, r 0x98 0x20,
  r 0x99 0x11, r 0x9a 0x06, r 0xfe 0x00, r 0xec 0x02, r 0xed 0x02, r 0xee 0x30,
  r 0xef 0x48, r 0xfe 0x02, r 0x9d 0x08, r 0xfe 0x01, r 0x74 0x00, r 0xfe 0x01,
  r 0x01 0x04, r 0x02 0x60, r 0x03 0x02, r 0x04 0x48, r 0x05 0x18, r 0x06 0x50,
  r 0x07 0x10, r 0x08 0x38, r 0x0a 0x80, r 0x21 0x04, r 0xfe 0x00, r 0x20 0x03,
  r 0xfe 0x00, r 0xFF 0x00]

def gc2145_setting_qvga : List gc2145_reg := [
  r 0xfe 0x00, r 0xb6 0x01, r 0xfd 0x01, r 0xfa 0x00, r 0xfe 0x00, r 0x90 0x01,
  r 0x91 0x00, r 0x92 0x00, r 0x93 0x00, r 0x94 0x00, r 0x95 0x00, r 0x96 0xf0,
  r 0x97 0x01, r 0x98 0x40, r 0x99 0x55, r 0x9a 0x06, r 0x9b 0x01, r 0x9c 0x00,
  r 0x9d 0x00, r 0x9e 0x00, r 0x9f 0x01, r 0xa0 0x00, r 0xa1 0x00, r 0xa2 0x00,
  r 0xfe 0x00, r 0xec 0x02, r 0xed 0x02, r 0xee 0x30, r 0xef 0x48, r 0xfe 0x02,
  r 0x9d 0x08, r 0xfe 0x01, r 0x74 0x00, r 0xfe 0x01, r 0x01 0x04, r 0x02 0x60,
  r 0x03 0x02, r 0x04 0x48, r 0x05 0x18, r 0x06 0x50, r 0x07 0x10, r 0x08 0x38,
  r 0x0a 0x80, r 0x21 0x04, r 0xfe 0x00, r 0x20 0x03, r 0xfe 0x00, r 0xFF 0x00]

def gc2145_setting_vga : List gc2145_reg := [
  r 0xfe 0x00, r 0xb6 0x01, r 0xfd 0x01, r 0xfa 0x00, r 0xfe 0x00, r 0x90 0x01,
  r 0x91 0x00, r 0x92 0x00, r 0x93 0x00, r 0x94 0x00, r 0x95 0x01, r 0x96 0xe0,
  r 0x97 0x02, r 0x98 0x80, r 0x99 0x55, r 0x9a 0x06, r 0x9b 0x01, r 0x9c 0x23,
  r 0x9d 0x00, r 0x9e 0x00, r 0x9f 0x01, r 0xa0 0x23, r 0xa1 0x00, r 0xa2 0x00,
  r 0xfe 0x00, r 0xec 0x02, r 0xed 0x02, r 0xee 0x30, r 0xef 0x48, r 0xfe 0x02,
  r 0x9d 0x08, r 0xfe 0x01, r 0x74 0x00, r 0xfe 0x01, r 0x01 0x04, r 0x02 0x60,
  r 0x03 0x02, r 0x04 0x48, r 0x05 0x18, r 0x06 0x50, r 0x07 0x10, r 0x08 0x38,
  r 0x0a 0x80, r 0x21 0x04, r 0xfe 0x00, r 0x20 0x03, r 0xfe 0x00, r 0xFF 0x00]

def gc2145_setting_svga : List gc2145_reg := [
  r 0xfe 0x00, r 0x05 0x02, r 0x06 0x20, r 0x07 0x03, r 0x08 0x80, r 0xb6 0x01,
  r 0xfd 0x03, r 0xfa 0x00, r 0x18 0x42, r 0xfe 0x00, r 0x90 0x01, r 0x91 0x00,
  r 0x92 0x00, r 0x93 0x00, r 0x94 0x00, r 0x95 0x02, r 0x96 0x58, r 0x97 0x03,
  r 0x98 0x20, r 0x99 0x11, r 0x9a 0x06, r 0xfe 0x00, r 0xec 0x02, r 0xed 0x02,
  r 0xee 0x30, r 0xef 0x48, r 0xfe 0x02, r 0x9d 0x08, r 0xfe 0x01, r 0x74 0x00,
  r 0xfe 0x01, r 0x01 0x04, r 0x02 0x60, r 0x03 0x02, r 0x04 0x48, r 0x05 0x18,
  r 0x06 0x50, r 0x07 0x10, r 0x08 0x38, r 0x0a 0x80, r 0x21 0x04, r 0xfe 0x00,
  r 0x20 0x03, r 0xfe 0x00, r 0xFF 0x00]

def gc2145_setting_uxga : List gc2145_reg := [
  r 0xfe 0x00, r 0xfd 0x00, r 0xfa 0x11, r 0xfe 0x00, r 0x90 0x01, r 0x91 0x00,
  r 0x92 0x00, r 0x93 0x00, r 0x94 0x00, r 0x95 0x04, r 0x96 0xb0, r 0x97 0x06,
  r 0x98 0x40, r 0x99 0x11, r 0x9a 0x06, r 0xfe 0x00, r 0xec 0x06, r 0xed 0x04,
  r 0xee 0x60, r 0xef 0x90, r 0xfe 0x01, r 0x74 0x01, r 0xfe 0x01, r 0x01 0x04,
  r 0x02 0xc0, r 0x03 0x04, r 0x04 0x90, r 0x05 0x30, r 0x06 0x90, r 0x07 0x30,
  r 0x08 0x80, r 0x0a 0x82, r 0xfe 0x01, r 0x21 0x15, r 0xfe 0x00, r 0x20 0x15,
  r 0xfe 0x00, r 0xFF 0x00]

/-- One-register format patch programs (the C arrays hold one row each;
the driver dereferences only the first element). -/
def gc2145_fmt_yuv422_yuyv : gc2145_reg := r 0x84 0x02
def gc2145_fmt_yuv422_yvyu : gc2145_reg := r 0x84 0x03
def gc2145_fmt_yuv422_vyuy : gc2145_reg := r 0x84 0x01
def gc2145_fmt_yuv422_uyvy : gc2145_reg := r 0x84 0x00
def gc2145_fmt_raw : gc2145_reg := r 0x84 0x18

/-- Embeds `struct gc2145_pixfmt`. -/
structure gc2145_pixfmt where
  code : Nat
  colorspace : Nat
  output_fmt : Nat
  fmt_reg : gc2145_reg
deriving DecidableEq, Repr

instance : Inhabited gc2145_pixfmt := ⟨⟨0, 0, 0, r 0 0⟩⟩

/-- The fixed pixel-format catalog; the first entry is the default. -/
def gc2145_format_list : List gc2145_pixfmt := [
  ⟨MEDIA_BUS_FMT_UYVY8_2X8, V4L2_COLORSPACE_SRGB, GC2145_OUTPUT_FMT_UYVY, gc2145_fmt_yuv422_uyvy⟩,
  ⟨MEDIA_BUS_FMT_VYUY8_2X8, V4L2_COLORSPACE_JPEG, GC2145_OUTPUT_FMT_VYUY, gc2145_fmt_yuv422_vyuy⟩,
  ⟨MEDIA_BUS_FMT_YUYV8_2X8, V4L2_COLORSPACE_SRGB, GC2145_OUTPUT_FMT_YUYV, gc2145_fmt_yuv422_yuyv⟩,
  ⟨MEDIA_BUS_FMT_YVYU8_2X8, V4L2_COLORSPACE_JPEG, GC2145_OUTPUT_FMT_YVYU, gc2145_fmt_yuv422_yvyu⟩,
  ⟨MEDIA_BUS_FMT_RGB565_2X8_BE, V4L2_COLORSPACE_SRGB, GC2145_OUTPUT_FMT_RGB, gc2145_fmt_raw⟩,
  ⟨MEDIA_BUS_FMT_SBGGR8_1X8, V4L2_COLORSPACE_RAW, GC2145_OUTPUT_FMT_LSC, gc2145_fmt_raw⟩]

def GC2145_MODE_QVGA_320_240 : Nat := 0
def GC2145_MODE_VGA_640_480 : Nat := 1
def GC2145_MODE_SVGA_800_600 : Nat := 2
def GC2145_MODE_UXGA_1600_1200 : Nat := 3

/-- Embeds `struct gc2145_mode` (the `reg_list_size` field is the list length). -/
structure gc2145_mode where
  id : Nat
  hact : Nat
  htot : Nat
  vact : Nat
  vtot : Nat
  reg_list : List gc2145_reg
deriving DecidableEq, Repr

instance : Inhabited gc2145_mode := ⟨⟨0, 0, 0, 0, 0, []⟩⟩

/-- The fixed mode catalog (4 entries). -/
def gc2145_mode_list : List gc2145_mode := [
  ⟨GC2145_MODE_QVGA_320_240, 320, 320, 240, 240, gc2145_setting_qvga⟩,
  ⟨GC2145_MODE_VGA_640_480, 640, 640, 480, 480, gc2145_setting_vga⟩,
  ⟨GC2145_MODE_SVGA_800_600, 800, 800, 600, 600, gc2145_setting_svga⟩,
  ⟨GC2145_MODE_UXGA_1600_1200, 1600, 1600, 1200, 1200, gc2145_setting_uxga⟩]

/-! ## Transport primitives -/

/-- Embeds `gc2145_write_reg`: one i2c write transaction.  Returns the negative
`i2c_transfer` result on failure, else 0; the single attempted write is
recorded as an event. -/
def gc2145_write_reg (b : Bus) (reg val : Nat) : Int × List Event × Bus :=
  let ret := b.wRet b.nw
  let b' : Bus := { b with nw := b.nw + 1 }
  if ret < 0 then (ret, [.wr reg val false], b')
  else (0, [.wr reg val true], b')

/-- Embeds `gc2145_read_reg`: one i2c read transaction.  The byte read is the
transport's `rVal` reduced mod 256 (the C buffer is a `u8`); on a failed
transfer the C leaves the out-parameter unassigned (an arbitrary byte),
which the model represents by the same transport-chosen byte. -/
def gc2145_read_reg (b : Bus) (reg : Nat) : Int × Nat × List Event × Bus :=
  let ret := b.rRet b.nr
  let v := b.rVal b.nr % 256
  let b' : Bus := { b with nr := b.nr + 1 }
  if ret < 0 then (ret, v, [.rd reg v false], b')
  else (0, v, [.rd reg v true], b')

/-- The `for` loop of `gc2145_write_array`: rows whose address is the
`GC2145_REG_NULL` sentinel become an `mdelay` of the encoded value; other
rows are written, and the loop breaks on the first failing write,
carrying the last `gc2145_write_reg` result in `ret`. -/
def gc2145_write_array_go (b : Bus) : List gc2145_reg → Int → Int × List Event × Bus
  | [], ret => (ret, [], b)
  | rg :: rest, ret =>
    if rg.addr = GC2145_REG_NULL then
      let o := gc2145_write_array_go b rest ret
      (o.1, .sleepMs rg.val :: o.2.1, o.2.2)
    else
      let ow := gc2145_write_reg b rg.addr rg.val
      if ow.1 < 0 then ow
      else
        let o := gc2145_write_array_go ow.2.2 rest ow.1
        (o.1, ow.2.1 ++ o.2.1, o.2.2)

/-- Embeds `gc2145_write_array(client, regs, size)`.  The C checks `client == NULL`,
`regs == NULL` and `size == 0` (callers pass `size = ARRAY_SIZE(regs)`,
embedded as the list length) before any I/O. -/
def gc2145_write_array (b : Bus) (clientNull : Bool) (regs : List gc2145_reg)
    (regsNull : Bool) : Int × List Event × Bus :=
  if clientNull then (-EINVAL, [], b)
  else if regsNull then (-EINVAL, [], b)
  else if regs.length = 0 then (-EINVAL, [], b)
  else gc2145_write_array_go b regs 0

/-! ## Format and mode resolution -/

/-- Decidable equality for fallible results. -/
instance {ε α : Type} [DecidableEq ε] [DecidableEq α] : DecidableEq (Except ε α) := fun x y =>
  match x, y with
  | .error a, .error b =>
    if h : a = b then .isTrue (by rw [h]) else .isFalse (by simp [h])
  | .error _, .ok _ => .isFalse (by simp)
  | .ok _, .error _ => .isFalse (by simp)
  | .ok a, .ok b =>
    if h : a = b then .isTrue (by rw [h]) else .isFalse (by simp [h])

/-- Embeds `gc2145_find_pixfmt`: linear search of the format catalog, falling
back to entry 0 when the loop runs off the end (`i >= ARRAY_SIZE` in C;
`List.findIdx` likewise returns the length when no entry matches). -/
def gc2145_find_pixfmt (code : Nat) : gc2145_pixfmt :=
  let i := gc2145_format_list.findIdx (fun f => f.code = code)
  let i := if gc2145_format_list.length ≤ i then 0 else i
  gc2145_format_list.getD i default

/-- Embeds `gc2145_enum_mbus_code`: pad must be 0 and the index must be within
the format catalog; returns the code at that index. -/
def gc2145_enum_mbus_code (pad index : Nat) : Except Int Nat :=
  if pad ≠ 0 then .error (-EINVAL)
  else if gc2145_format_list.length ≤ index then .error (-EINVAL)
  else .ok (gc2145_format_list.getD index default).code

/-- Embeds `gc2145_enum_frame_size`.  Note: the C function never checks
`fse->pad` (the `pad` argument is unused, as in the source), its index
bound is `ARRAY_SIZE(gc2145_format_list)` (6), and it then reads
`gc2145_mode_list[fse->index]` (4 entries) unconditionally; the total
embedding returns the out-of-bounds access as `none`. -/
def gc2145_enum_frame_size (_pad index code : Nat) : Except Int (Option (Nat × Nat)) :=
  if gc2145_format_list.length ≤ index then .error (-EINVAL)
  else
    let pix := gc2145_find_pixfmt code
    if code ≠ pix.code then .error (-EINVAL)
    else .ok ((gc2145_mode_list.get? index).map fun m => (m.hact, m.vact))

/-- Modelled from the spec: the kernel helper `v4l2_find_nearest_size`
is outside this repository; per the spec it picks the catalog entry
nearest the requested `(width, height)` ("nearest match by area/aspect
heuristic, ties broken by catalog order — first listed wins"), embedded
as minimizing the sum of absolute width and height differences with the
first minimum winning.  Returns `none` only for an empty catalog. -/
def v4l2_find_nearest_size (l : List gc2145_mode) (width height : Nat) :
    Option gc2145_mode :=
  let dist := fun (m : gc2145_mode) =>
    (max m.hact width - min m.hact width) + (max m.vact height - min m.vact height)
  l.foldl (fun best m =>
    match best with
    | none => some m
    | some bm => if dist m < dist bm then some m else some bm) none

/-- Embeds `gc2145_find_mode`: nearest-match lookup; when `nearest` is false the
result must match the request exactly. -/
def gc2145_find_mode (width height : Nat) (nearest : Bool) : Option gc2145_mode :=
  match v4l2_find_nearest_size gc2145_mode_list width height with
  | none => none
  | some m =>
    if ¬nearest ∧ (m.hact ≠ width ∨ m.vact ≠ height) then none else some m

/-! ## Mbus format and its derived fields -/

/-- The fields of `struct v4l2_mbus_framefmt` the driver touches. -/
structure v4l2_mbus_framefmt where
  width : Nat
  height : Nat
  code : Nat
  colorspace : Nat
  ycbcr_enc : Nat
  quantization : Nat
  xfer_func : Nat
  fieldOrder : Nat
deriving DecidableEq, Repr

/-- Modelled from the spec: the kernel macro `V4L2_MAP_YCBCR_ENC_DEFAULT`
(outside this repository) derives the default YCbCr encoding
deterministically from the colorspace tag. -/
def V4L2_MAP_YCBCR_ENC_DEFAULT (colsp : Nat) : Nat :=
  if colsp = 3 ∨ colsp = 12 then 2
  else if colsp = 10 then 6
  else if colsp = 5 then 8
  else 1

/-- Modelled from the spec: the kernel macro `V4L2_MAP_QUANTIZATION_DEFAULT`
(outside this repository); the driver always passes `is_rgb_or_hsv = true`. -/
def V4L2_MAP_QUANTIZATION_DEFAULT (is_rgb_or_hsv : Bool) (colsp _ycbcr_enc : Nat) : Nat :=
  if is_rgb_or_hsv ∨ colsp = V4L2_COLORSPACE_JPEG then 1 else 2

/-- Modelled from the spec: the kernel macro `V4L2_MAP_XFER_FUNC_DEFAULT`
(outside this repository) derives the transfer function from the
colorspace tag. -/
def V4L2_MAP_XFER_FUNC_DEFAULT (colsp : Nat) : Nat :=
  if colsp = V4L2_COLORSPACE_RAW then 5 else 1

/-- Embeds `gc2145_try_fmt_internal`: resolve the request to a (format, mode)
pair without touching hardware.  The C writes the resolved values back
through `mbus_fmt` and `*new_mode`; the embedding returns them.  (The
C's `new_mode == NULL` out-pointer guard has no counterpart here.) -/
def gc2145_try_fmt_internal (fmt : v4l2_mbus_framefmt) :
    Except Int (v4l2_mbus_framefmt × gc2145_mode) :=
  match gc2145_find_mode fmt.width fmt.height true with
  | none => .error (-EINVAL)
  | some mode =>
    let fmt := { fmt with
      width := mode.hact, height := mode.vact, fieldOrder := V4L2_FIELD_NONE }
    let pix := gc2145_find_pixfmt fmt.code
    let cs := pix.colorspace
    let enc := V4L2_MAP_YCBCR_ENC_DEFAULT cs
    .ok ({ fmt with
      code := pix.code, colorspace := cs, ycbcr_enc := enc,
      quantization := V4L2_MAP_QUANTIZATION_DEFAULT true cs enc,
      xfer_func := V4L2_MAP_XFER_FUNC_DEFAULT cs }, mode)

/-! ## Sensor state -/

/-- The fields of `struct gc2145_dev` the embedded operations use.  The
gpio descriptors are modelled by presence flags. -/
structure gc2145_dev where
  fmt : v4l2_mbus_framefmt
  current_mode : gc2145_mode
  last_mode : gc2145_mode
  power_count : Int
  pwdn_gpio : Bool
  reset_gpio : Bool
deriving DecidableEq, Repr

/-- Embeds the `V4L2_SUBDEV_FORMAT_TRY` / `V4L2_SUBDEV_FORMAT_ACTIVE` selector. -/
inductive WhichFmt where
  | TRY
  | ACTIVE
deriving DecidableEq, Repr

/-- Embeds `gc2145_get_fmt`: pad 0 only; returns the per-caller try format or
the committed `sensor->fmt`. -/
def gc2145_get_fmt (sensor : gc2145_dev) (tryFmt : v4l2_mbus_framefmt)
    (pad : Nat) (which : WhichFmt) : Except Int v4l2_mbus_framefmt :=
  if pad ≠ 0 then .error (-EINVAL)
  else
    match which with
    | .TRY => .ok tryFmt
    | .ACTIVE => .ok sensor.fmt

/-- Embeds `gc2145_params_set`: apply the init program, select page 0, then
apply the one-register format patch for the format committed in
`sensor->fmt`.  The per-mode crop program application is commented out
in the source and therefore absent here. -/
def gc2145_params_set (b : Bus) (sensor : gc2145_dev) : Int × List Event × Bus :=
  let pixfmt := gc2145_find_pixfmt sensor.fmt.code
  let o1 := gc2145_write_array b false gc2145_init_regs false
  if o1.1 < 0 then o1
  else
    let o2 := gc2145_write_reg o1.2.2 GC2145_REG_PAGE_SELECT 0x00
    if o2.1 < 0 then (o2.1, o1.2.1 ++ o2.2.1, o2.2.2)
    else
      let o3 := gc2145_write_reg o2.2.2 pixfmt.fmt_reg.addr pixfmt.fmt_reg.val
      if o3.1 < 0 then (o3.1, o1.2.1 ++ o2.2.1 ++ o3.2.1, o3.2.2)
      else (0, o1.2.1 ++ o2.2.1 ++ o3.2.1, o3.2.2)

/-- Everything `gc2145_set_fmt` mutates or returns: the C return value,
the sensor state, the per-caller try-format slot, the caller's
`format->format` after the call, and the bus activity. -/
structure SetFmtResult where
  ret : Int
  sensor : gc2145_dev
  tryFmt : v4l2_mbus_framefmt
  fmt : v4l2_mbus_framefmt
  events : List Event
  bus : Bus

/-- Embeds `gc2145_set_fmt`.  After the pad check the C overwrites the request
with `width = 800, height = 600`, resolves via `gc2145_try_fmt_internal`,
stores the result in the try slot (TRY) or in `sensor->fmt` (ACTIVE),
and on the ACTIVE path sets `sensor->current_mode` and then calls
`gc2145_params_set`, returning its result without undoing the state
update on failure. -/
def gc2145_set_fmt (b : Bus) (sensor : gc2145_dev) (tryFmt : v4l2_mbus_framefmt)
    (pad : Nat) (which : WhichFmt) (format : v4l2_mbus_framefmt) : SetFmtResult :=
  if pad ≠ 0 then ⟨-EINVAL, sensor, tryFmt, format, [], b⟩
  else
    let fmtIn := { format with width := 800, height := 600 }
    match gc2145_try_fmt_internal fmtIn with
    | .error e => ⟨e, sensor, tryFmt, fmtIn, [], b⟩
    | .ok (fmtOut, newMode) =>
      match which with
      | .TRY => ⟨0, sensor, fmtOut, fmtOut, [], b⟩
      | .ACTIVE =>
        let sensor1 := { sensor with fmt := fmtOut, current_mode := newMode }
        let o := gc2145_params_set b sensor1
        ⟨o.1, sensor1, tryFmt, fmtOut, o.2.1, o.2.2⟩

/-- Embeds `gc2145_mode_set_default`: attach-time default, SVGA with catalog
entry 0 (UYVY); gpio lines present, power count 0. -/
def gc2145_mode_set_default : gc2145_dev :=
  let f0 := gc2145_format_list.getD 0 default
  let svga := gc2145_mode_list.getD 2 default
  let cs := f0.colorspace
  let enc := V4L2_MAP_YCBCR_ENC_DEFAULT cs
  { fmt := { width := svga.hact, height := svga.vact, code := f0.code,
             colorspace := cs, ycbcr_enc := enc,
             quantization := V4L2_MAP_QUANTIZATION_DEFAULT true cs enc,
             xfer_func := V4L2_MAP_XFER_FUNC_DEFAULT cs,
             fieldOrder := V4L2_FIELD_NONE },
    current_mode := svga, last_mode := svga,
    power_count := 0, pwdn_gpio := true, reset_gpio := true }

/-! ## Power sequencing and identification -/

/-- Embeds `gc2145_power`: drive the power-down gpio; on enable, pulse it with
100 microsecond settles; on disable, assert it and settle. -/
def gc2145_power (sensor : gc2145_dev) (enable : Bool) : Int × List Event :=
  if ¬sensor.pwdn_gpio then (-1, [])
  else if enable then
    (0, [.gpioPwdn 1, .sleepUs 100, .gpioPwdn 0, .sleepUs 100])
  else
    (0, [.gpioPwdn 1, .sleepUs 100])

/-- Embeds `gc2145_reset`: pulse the reset gpio with 100 microsecond settles. -/
def gc2145_reset (sensor : gc2145_dev) : Int × List Event :=
  if ¬sensor.reset_gpio then (-1, [])
  else (0, [.gpioReset 1, .sleepUs 100, .gpioReset 0, .sleepUs 100])

/-- Embeds `gc2145_set_power_on`: power then reset, failing with -1 when either
step fails.  (The C's `sensor == NULL` guard has no counterpart.) -/
def gc2145_set_power_on (sensor : gc2145_dev) : Int × List Event :=
  let o1 := gc2145_power sensor true
  if o1.1 ≠ 0 then (-1, o1.2)
  else
    let o2 := gc2145_reset sensor
    if o2.1 ≠ 0 then (-1, o1.2 ++ o2.2)
    else (0, o1.2 ++ o2.2)

/-- Embeds `gc2145_set_power_off`: assert power-down, then disable the
reference clock. -/
def gc2145_set_power_off (sensor : gc2145_dev) : Int × List Event :=
  let o1 := gc2145_power sensor false
  if o1.1 ≠ 0 then (-1, o1.2)
  else (0, o1.2 ++ [.clkOff])

/-- Embeds `gc2145_s_power`: the C calls `gc2145_set_power_on` whenever
`power_count == !on` (i.e. both on the 0→1 and the 1→0 transition),
then updates the count and `WARN_ON`s a negative count (modelled as a
`warn` event). -/
def gc2145_s_power (sensor : gc2145_dev) (onv : Int) : Int × gc2145_dev × List Event :=
  let notOn : Int := if onv = 0 then 1 else 0
  if sensor.power_count = notOn then
    let o := gc2145_set_power_on sensor
    if o.1 ≠ 0 then (o.1, sensor, o.2)
    else
      let s' := { sensor with
        power_count := sensor.power_count + (if onv = 0 then -1 else 1) }
      (0, s', if s'.power_count < 0 then o.2 ++ [.warn] else o.2)
  else
    let s' := { sensor with
      power_count := sensor.power_count + (if onv = 0 then -1 else 1) }
    (0, s', if s'.power_count < 0 then [.warn] else [])

/-- Embeds `gc2145_s_vflip`: select page 0, read register 0x17, set or clear
bit 1 of the freshly read value (or fail with `-EINVAL` for any other
control value), write it back and settle 20 ms. -/
def gc2145_s_vflip (b : Bus) (value : Int) : Int × List Event × Bus :=
  let o1 := gc2145_write_reg b 0xfe 0x00
  if o1.1 < 0 then o1
  else
    let o2 := gc2145_read_reg o1.2.2 0x17
    if o2.1 < 0 then (o2.1, o1.2.1 ++ o2.2.2.1, o2.2.2.2)
    else if value = 0 ∨ value = 1 then
      let v' := if value = 0 then o2.2.1 &&& 0xfd else o2.2.1 ||| 0x02
      let o3 := gc2145_write_reg o2.2.2.2 0x17 v'
      if o3.1 < 0 then (o3.1, o1.2.1 ++ o2.2.2.1 ++ o3.2.1, o3.2.2)
      else (0, o1.2.1 ++ o2.2.2.1 ++ o3.2.1 ++ [.sleepMs 20], o3.2.2)
    else (-EINVAL, o1.2.1 ++ o2.2.2.1, o2.2.2.2)

/-- Embeds `gc2145_check_chip_id`: power on, read the two id bytes (their
i2c return codes are ignored by the C), compare with
`(chip_id[0] != ((GC2145_CHIP_ID >> 8) & 0xFF)) && (chip_id[1] != (GC2145_REG_CHIP_ID_L & 0xFF))`
— both comparisons joined by `&&`, and the second against the register
address constant — and on that combined mismatch power back off and
return `-ENXIO`. -/
def gc2145_check_chip_id (b : Bus) (sensor : gc2145_dev) : Int × List Event × Bus :=
  let o0 := gc2145_set_power_on sensor
  if o0.1 ≠ 0 then (o0.1, o0.2, b)
  else
    let o1 := gc2145_read_reg b GC2145_REG_CHIP_ID_H
    let o2 := gc2145_read_reg o1.2.2.2 GC2145_REG_CHIP_ID_L
    if o1.2.1 ≠ ((GC2145_CHIP_ID >>> 8) % 256) ∧ o2.2.1 ≠ (GC2145_REG_CHIP_ID_L % 256) then
      let o3 := gc2145_set_power_off sensor
      (-ENXIO_err, o0.2 ++ o1.2.2.1 ++ o2.2.2.1 ++ o3.2, o2.2.2.2)
    else (0, o0.2 ++ o1.2.2.1 ++ o2.2.2.1, o2.2.2.2)

/-! ## Observations over event traces -/

/-- Writes attempted on the transport (address, value), in dispatch order. -/
def wrAttempts (evs : List Event) : List (Nat × Nat) :=
  evs.filterMap fun e => match e with | .wr a v _ => some (a, v) | _ => none

/-- Writes the transport carried out successfully, in dispatch order. -/
def wrDispatched (evs : List Event) : List (Nat × Nat) :=
  evs.filterMap fun e => match e with | .wr a v true => some (a, v) | _ => none

/-- Total milliseconds of blocking delay in an event trace. -/
def sleepMsTotal (evs : List Event) : Nat :=
  (evs.filterMap fun e => match e with | .sleepMs n => some n | _ => none).sum

/-- The non-sentinel rows of a register program. -/
def nonSentinel (regs : List gc2145_reg) : List gc2145_reg :=
  regs.filter fun rg => decide (rg.addr ≠ GC2145_REG_NULL)

/-! ## Concrete fixtures -/

/-- Transport on which every transaction succeeds and every read yields 0. -/
def busAllOK : Bus := ⟨fun _ => 1, fun _ => 1, fun _ => 0, 0, 0⟩

/-- Transport on which every write fails with -5. -/
def busAllFail : Bus := ⟨fun _ => -5, fun _ => 1, fun _ => 0, 0, 0⟩

/-- Transport failing exactly the second write transaction. -/
def busFailAtSecond : Bus := ⟨fun n => if n = 1 then -5 else 1, fun _ => 1, fun _ => 0, 0, 0⟩

/-- Transport whose reads yield the bytes `hi` then `lo` (chip-id probes). -/
def busChipId (hi lo : Nat) : Bus :=
  ⟨fun _ => 1, fun _ => 1, fun n => if n = 0 then hi else lo, 0, 0⟩

/-- Transport whose reads yield the byte 0xA5. -/
def busReadA5 : Bus := ⟨fun _ => 1, fun _ => 1, fun _ => 0xA5, 0, 0⟩

/-- A four-row program: write, delay sentinel, write, write. -/
def progMixed : List gc2145_reg := [r 0x10 0x11, r 0xFF 0x07, r 0x20 0x21, r 0x30 0x31]

/-- A program of delay sentinels only (5 ms then 7 ms). -/
def progDelayOnly : List gc2145_reg := [r 0xFF 5, r 0xFF 7]

/-- The attach-time sensor state. -/
def defaultSensor : gc2145_dev := gc2145_mode_set_default

/-- The attach-time sensor state after one successful power-on. -/
def sensorCount1 : gc2145_dev := { gc2145_mode_set_default with power_count := 1 }

/-- A 640 by 480 YUYV format request. -/
def fmtReq640 : v4l2_mbus_framefmt := ⟨640, 480, MEDIA_BUS_FMT_YUYV8_2X8, 0, 0, 0, 0, 0⟩

/-- An all-zero format value. -/
def fmtZero : v4l2_mbus_framefmt := ⟨0, 0, 0, 0, 0, 0, 0, 0⟩

/-! ## Helper lemmas about register-program application -/

lemma go_cons_sentinel (b : Bus) (rg : gc2145_reg) (rest : List gc2145_reg) (ret0 : Int)
    (hs : rg.addr = GC2145_REG_NULL) :
    gc2145_write_array_go b (rg :: rest) ret0 =
      ((gc2145_write_array_go b rest ret0).1,
       .sleepMs rg.val :: (gc2145_write_array_go b rest ret0).2.1,
       (gc2145_write_array_go b rest ret0).2.2) := by
  simp [gc2145_write_array_go, hs]

lemma go_cons_fail (b : Bus) (rg : gc2145_reg) (rest : List gc2145_reg) (ret0 : Int)
    (hs : rg.addr ≠ GC2145_REG_NULL) (hf : b.wRet b.nw < 0) :
    gc2145_write_array_go b (rg :: rest) ret0 =
      (b.wRet b.nw, [.wr rg.addr rg.val false], { b with nw := b.nw + 1 }) := by
  simp [gc2145_write_array_go, hs, gc2145_write_reg, hf]

lemma go_cons_ok (b : Bus) (rg : gc2145_reg) (rest : List gc2145_reg) (ret0 : Int)
    (hs : rg.addr ≠ GC2145_REG_NULL) (hf : 0 ≤ b.wRet b.nw) :
    gc2145_write_array_go b (rg :: rest) ret0 =
      ((gc2145_write_array_go { b with nw := b.nw + 1 } rest 0).1,
       .wr rg.addr rg.val true :: (gc2145_write_array_go { b with nw := b.nw + 1 } rest 0).2.1,
       (gc2145_write_array_go { b with nw := b.nw + 1 } rest 0).2.2) := by
  have : ¬ b.wRet b.nw < 0 := not_lt.mpr hf
  simp [gc2145_write_array_go, hs, gc2145_write_reg, this]

lemma go_sentinels (b : Bus) (regs : List gc2145_reg) (ret0 : Int)
    (hall : ∀ rg ∈ regs, rg.addr = GC2145_REG_NULL) :
    gc2145_write_array_go b regs ret0 =
      (ret0, regs.map (fun rg => Event.sleepMs rg.val), b) := by
  induction regs with
  | nil => simp [gc2145_write_array_go]
  | cons rg rest ih =>
    have h0 := hall rg (by simp)
    rw [go_cons_sentinel b rg rest ret0 h0, ih (fun x hx => hall x (List.mem_cons_of_mem _ hx))]
    simp

lemma go_no_sentinel_write (regs : List gc2145_reg) : ∀ (b : Bus) (ret0 : Int),
    ∀ p ∈ wrAttempts (gc2145_write_array_go b regs ret0).2.1, p.1 ≠ GC2145_REG_NULL := by
  induction regs with
  | nil => intro b ret0 p hp; simp [gc2145_write_array_go, wrAttempts] at hp
  | cons rg rest ih =>
    intro b ret0 p hp
    by_cases hs : rg.addr = GC2145_REG_NULL
    · rw [go_cons_sentinel b rg rest ret0 hs] at hp
      simp only [wrAttempts, List.filterMap_cons] at hp
      exact ih b ret0 p hp
    · by_cases hf : b.wRet b.nw < 0
      · rw [go_cons_fail b rg rest ret0 hs hf] at hp
        simp only [wrAttempts, List.filterMap_cons, List.filterMap_nil] at hp
        simp at hp
        rw [hp]; exact hs
      · rw [go_cons_ok b rg rest ret0 hs (not_lt.mp hf)] at hp
        simp only [wrAttempts, List.filterMap_cons] at hp
        rcases List.mem_cons.mp hp with h | h
        · rw [h]; exact hs
        · exact ih _ 0 p h

lemma go_fail (regs : List gc2145_reg) : ∀ (b : Bus) (k : Nat) (ret0 : Int),
    k < (nonSentinel regs).length →
    (∀ i, i < k → 0 ≤ b.wRet (b.nw + i)) →
    b.wRet (b.nw + k) < 0 →
    (gc2145_write_array_go b regs ret0).1 = b.wRet (b.nw + k) ∧
    wrDispatched (gc2145_write_array_go b regs ret0).2.1 =
      ((nonSentinel regs).take k).map (fun rg => (rg.addr, rg.val)) ∧
    wrAttempts (gc2145_write_array_go b regs ret0).2.1 =
      ((nonSentinel regs).take (k + 1)).map (fun rg => (rg.addr, rg.val)) := by
  induction regs with
  | nil => intro b k ret0 hk; simp [nonSentinel] at hk
  | cons rg rest ih =>
    intro b k ret0 hk hok hfail
    by_cases hs : rg.addr = GC2145_REG_NULL
    · have hns : nonSentinel (rg :: rest) = nonSentinel rest := by
        simp [nonSentinel, List.filter_cons, hs]
      rw [hns] at hk ⊢
      obtain ⟨ha, hb, hc⟩ := ih b k ret0 hk hok hfail
      rw [go_cons_sentinel b rg rest ret0 hs]
      refine ⟨ha, ?_, ?_⟩
      · simpa [wrDispatched, List.filterMap_cons] using hb
      · simpa [wrAttempts, List.filterMap_cons] using hc
    · have hns : nonSentinel (rg :: rest) = rg :: nonSentinel rest := by
        simp [nonSentinel, List.filter_cons, hs]
      rw [hns] at hk ⊢
      cases k with
      | zero =>
        have hf0 : b.wRet b.nw < 0 := by simpa using hfail
        rw [go_cons_fail b rg rest ret0 hs hf0]
        refine ⟨by simp, by simp [wrDispatched], by simp [wrAttempts]⟩
      | succ k' =>
        have h0 : 0 ≤ b.wRet b.nw := by simpa using hok 0 (Nat.succ_pos _)
        rw [go_cons_ok b rg rest ret0 hs h0]
        have hshift : ∀ i, b.nw + 1 + i = b.nw + (i + 1) := by omega
        obtain ⟨ha, hb, hc⟩ := ih { b with nw := b.nw + 1 } k' 0
          (by simpa using hk)
          (by intro i hi
              have := hok (i + 1) (Nat.succ_lt_succ hi)
              simpa [hshift i] using this)
          (by have h1 : b.nw + 1 + k' = b.nw + (k' + 1) := by omega
              simpa [h1] using hfail)
        refine ⟨?_, ?_, ?_⟩
        · rw [ha]; simp [hshift k']
        · simp only [wrDispatched, List.filterMap_cons] at hb ⊢
          simp [hb, wrDispatched, List.take, List.map_cons]
        · simp only [wrAttempts, List.filterMap_cons] at hc ⊢
          simp [hc, wrAttempts, List.take, List.map_cons]

lemma write_array_eq_go (b : Bus) (regs : List gc2145_reg) (hne : regs ≠ []) :
    gc2145_write_array b false regs false = gc2145_write_array_go b regs 0 := by
  simp [gc2145_write_array, List.length_eq_zero, hne]

lemma filterMap_sleep_map (regs : List gc2145_reg) :
    List.filterMap (fun e => match e with | Event.sleepMs n => some n | _ => none)
      (regs.map fun rg => Event.sleepMs rg.val) = regs.map fun rg => rg.val := by
  induction regs with
  | nil => rfl
  | cons a l ih => simp [List.filterMap_cons, ih]

lemma go_allok (regs : List gc2145_reg) : ∀ (b : Bus), (∀ n, 0 ≤ b.wRet n) →
    (gc2145_write_array_go b regs 0).1 = 0 := by
  induction regs with
  | nil => intro b h; rfl
  | cons rg rest ih =>
    intro b h
    by_cases hs : rg.addr = GC2145_REG_NULL
    · rw [go_cons_sentinel b rg rest 0 hs]; exact ih b h
    · rw [go_cons_ok b rg rest 0 hs (h _)]; exact ih _ h

lemma go_bus_wRet (regs : List gc2145_reg) : ∀ (b : Bus) (ret0 : Int),
    ((gc2145_write_array_go b regs ret0).2.2).wRet = b.wRet := by
  induction regs with
  | nil => intro b ret0; rfl
  | cons rg rest ih =>
    intro b ret0
    by_cases hs : rg.addr = GC2145_REG_NULL
    · rw [go_cons_sentinel b rg rest ret0 hs]; exact ih b ret0
    · by_cases hf : b.wRet b.nw < 0
      · rw [go_cons_fail b rg rest ret0 hs hf]
      · rw [go_cons_ok b rg rest ret0 hs (not_lt.mp hf)]; exact ih _ 0

lemma init_regs_ne_nil : gc2145_init_regs ≠ [] := by decide

lemma params_set_allok (b : Bus) (sensor : gc2145_dev) (h : ∀ n, 0 ≤ b.wRet n) :
    (gc2145_params_set b sensor).1 = 0 := by
  have h1 : (gc2145_write_array b false gc2145_init_regs false).1 = 0 := by
    rw [write_array_eq_go b _ init_regs_ne_nil]; exact go_allok _ b h
  have hw : ((gc2145_write_array b false gc2145_init_regs false).2.2).wRet = b.wRet := by
    rw [write_array_eq_go b _ init_regs_ne_nil]; exact go_bus_wRet _ b 0
  have hnot : ∀ n, ¬ (b.wRet n < 0) := fun n => not_lt.mpr (h n)
  simp only [gc2145_params_set, gc2145_write_reg, hw, h1]
  simp [hnot]

lemma init_regs_head : gc2145_init_regs = r 0xfe 0xf0 :: gc2145_init_regs.tail := rfl

lemma params_set_first_fail (b : Bus) (sensor : gc2145_dev) (hf : b.wRet b.nw < 0) :
    (gc2145_params_set b sensor).1 = b.wRet b.nw := by
  have h1 : gc2145_write_array b false gc2145_init_regs false =
      (b.wRet b.nw, [.wr 0xfe 0xf0 false], { b with nw := b.nw + 1 }) := by
    rw [write_array_eq_go b _ init_regs_ne_nil, init_regs_head,
      go_cons_fail _ _ _ _ (by decide) hf]
    rfl
  simp only [gc2145_params_set, h1, if_pos hf]

lemma or_two_testBit (v i : Nat) (hi : i ≠ 1) :
    Nat.testBit (v ||| 2) i = Nat.testBit v i := by
  rw [Nat.testBit_or]
  have h2 : Nat.testBit 2 i = false := by
    rcases i with _ | i
    · decide
    · rcases i with _ | i
      · exact absurd rfl hi
      · have h4 : (2 : Nat) ^ 2 ≤ 2 ^ (i + 1 + 1) :=
          Nat.pow_le_pow_right (by norm_num) (by omega)
        exact Nat.testBit_eq_false_of_lt (lt_of_lt_of_le (by norm_num) h4)
  rw [h2, Bool.or_false]

lemma and_253_testBit (v i : Nat) (hv : v < 256) (hi : i ≠ 1) :
    Nat.testBit (v &&& 253) i = Nat.testBit v i := by
  rw [Nat.testBit_and]
  by_cases h8 : i < 8
  · have h253 : Nat.testBit 253 i = true := by
      interval_cases i <;> first | decide | exact absurd rfl hi
    rw [h253, Bool.and_true]
  · have hle : (256 : Nat) ≤ 2 ^ i := by
      calc (256 : Nat) = 2 ^ 8 := by norm_num
      _ ≤ 2 ^ i := Nat.pow_le_pow_right (by norm_num) (by omega)
    have hvf : Nat.testBit v i = false :=
      Nat.testBit_eq_false_of_lt (lt_of_lt_of_le hv hle)
    have h253f : Nat.testBit 253 i = false :=
      Nat.testBit_eq_false_of_lt (lt_of_lt_of_le (by norm_num) hle)
    simp [hvf, h253f]

/-! ## Claim theorems -/

/-- C1 (counterexample): with the default state (UYVY committed) and a
transport on which every write fails, an active `set_fmt` for YUYV
returns the error -5 yet leaves the newly resolved YUYV format committed
in `sensor->fmt` — the previously committed format is NOT left
untouched, refuting the claim as stated. -/
theorem C1_commit_despite_failure_cex :
    defaultSensor.fmt.code = MEDIA_BUS_FMT_UYVY8_2X8 ∧
    (gc2145_set_fmt busAllFail defaultSensor defaultSensor.fmt 0 .ACTIVE fmtReq640).ret = -5 ∧
    (gc2145_set_fmt busAllFail defaultSensor defaultSensor.fmt 0 .ACTIVE fmtReq640).sensor.fmt.code =
      MEDIA_BUS_FMT_YUYV8_2X8 ∧
    (gc2145_set_fmt busAllFail defaultSensor defaultSensor.fmt 0 .ACTIVE fmtReq640).sensor.fmt ≠
      defaultSensor.fmt := by
  decide

set_option maxHeartbeats 2000000 in
/-- C1 (amended): on the active path `gc2145_set_fmt` commits the newly
resolved format (forced to the 800 by 600 SVGA mode) into
`sensor->fmt`/`sensor->current_mode` BEFORE applying the register
programs; when the first dispatched write fails, the transport error is
returned but the new format remains committed. -/
theorem C1_amended_commit_before_apply (b : Bus) (sensor : gc2145_dev)
    (tf req : v4l2_mbus_framefmt) (hfail : b.wRet b.nw < 0) :
    (gc2145_set_fmt b sensor tf 0 .ACTIVE req).ret = b.wRet b.nw ∧
    (gc2145_set_fmt b sensor tf 0 .ACTIVE req).ret < 0 ∧
    (gc2145_set_fmt b sensor tf 0 .ACTIVE req).sensor.fmt =
      (gc2145_set_fmt b sensor tf 0 .ACTIVE req).fmt ∧
    (gc2145_set_fmt b sensor tf 0 .ACTIVE req).sensor.fmt.width = 800 ∧
    (gc2145_set_fmt b sensor tf 0 .ACTIVE req).sensor.fmt.height = 600 ∧
    (gc2145_set_fmt b sensor tf 0 .ACTIVE req).sensor.fmt.code =
      (gc2145_find_pixfmt req.code).code ∧
    (gc2145_set_fmt b sensor tf 0 .ACTIVE req).sensor.current_mode =
      gc2145_mode_list.getD 2 default := by
  have h1 : (gc2145_set_fmt b sensor tf 0 .ACTIVE req).ret = b.wRet b.nw :=
    params_set_first_fail _ _ hfail
  exact ⟨h1, lt_of_le_of_lt (le_of_eq h1) hfail, rfl, rfl, rfl, rfl, rfl⟩

/-- C1 (witness): the amended theorem applied to the all-writes-fail
transport and a concrete YUYV request. -/
theorem C1_amended_commit_before_apply_witness :
    busAllFail.wRet busAllFail.nw < 0 ∧
    ((gc2145_set_fmt busAllFail defaultSensor fmtZero 0 .ACTIVE fmtReq640).ret =
       busAllFail.wRet busAllFail.nw ∧
     (gc2145_set_fmt busAllFail defaultSensor fmtZero 0 .ACTIVE fmtReq640).ret < 0 ∧
     (gc2145_set_fmt busAllFail defaultSensor fmtZero 0 .ACTIVE fmtReq640).sensor.fmt =
       (gc2145_set_fmt busAllFail defaultSensor fmtZero 0 .ACTIVE fmtReq640).fmt ∧
     (gc2145_set_fmt busAllFail defaultSensor fmtZero 0 .ACTIVE fmtReq640).sensor.fmt.width = 800 ∧
     (gc2145_set_fmt busAllFail defaultSensor fmtZero 0 .ACTIVE fmtReq640).sensor.fmt.height = 600 ∧
     (gc2145_set_fmt busAllFail defaultSensor fmtZero 0 .ACTIVE fmtReq640).sensor.fmt.code =
       (gc2145_find_pixfmt fmtReq640.code).code ∧
     (gc2145_set_fmt busAllFail defaultSensor fmtZero 0 .ACTIVE fmtReq640).sensor.current_mode =
       gc2145_mode_list.getD 2 default) :=
  ⟨by decide, C1_amended_commit_before_apply busAllFail defaultSensor fmtZero fmtReq640 (by decide)⟩

/-- C2 (counterexample): an active `set_fmt(640, 480, YUYV)` on an
all-success transport succeeds, and the following `get_fmt(ACTIVE)`
returns the committed format with width 800 and height 600 — not the
requested 640 by 480 — refuting the claim as stated. -/
theorem C2_forced_svga_cex :
    (gc2145_set_fmt busAllOK defaultSensor defaultSensor.fmt 0 .ACTIVE fmtReq640).ret = 0 ∧
    gc2145_get_fmt
        (gc2145_set_fmt busAllOK defaultSensor defaultSensor.fmt 0 .ACTIVE fmtReq640).sensor
        defaultSensor.fmt 0 .ACTIVE =
      .ok (gc2145_set_fmt busAllOK defaultSensor defaultSensor.fmt 0 .ACTIVE fmtReq640).sensor.fmt ∧
    (gc2145_set_fmt busAllOK defaultSensor defaultSensor.fmt 0 .ACTIVE fmtReq640).sensor.fmt.width = 800 ∧
    (gc2145_set_fmt busAllOK defaultSensor defaultSensor.fmt 0 .ACTIVE fmtReq640).sensor.fmt.height = 600 ∧
    ¬((gc2145_set_fmt busAllOK defaultSensor defaultSensor.fmt 0 .ACTIVE fmtReq640).sensor.fmt.width = 640 ∧
      (gc2145_set_fmt busAllOK defaultSensor defaultSensor.fmt 0 .ACTIVE fmtReq640).sensor.fmt.height = 480) := by
  decide

set_option maxHeartbeats 2000000 in
/-- C2 (amended): `gc2145_set_fmt` overwrites every requested size with
800 by 600 before resolving, so every request (trial or active) on a
working transport succeeds, resolves to the SVGA catalog entry and
returns width 800, height 600 with the code resolved from the request;
on the active path the same format is committed and read back by
`get_fmt(ACTIVE)`. -/
theorem C2_amended_forced_svga (b : Bus) (sensor : gc2145_dev)
    (tf req : v4l2_mbus_framefmt) (which : WhichFmt) (h : ∀ n, 0 ≤ b.wRet n) :
    (gc2145_set_fmt b sensor tf 0 which req).ret = 0 ∧
    (gc2145_set_fmt b sensor tf 0 which req).fmt.width = 800 ∧
    (gc2145_set_fmt b sensor tf 0 which req).fmt.height = 600 ∧
    (gc2145_set_fmt b sensor tf 0 which req).fmt.code =
      (gc2145_find_pixfmt req.code).code ∧
    (which = .ACTIVE →
      (gc2145_set_fmt b sensor tf 0 which req).sensor.fmt =
        (gc2145_set_fmt b sensor tf 0 which req).fmt ∧
      (gc2145_set_fmt b sensor tf 0 which req).sensor.current_mode =
        gc2145_mode_list.getD 2 default ∧
      gc2145_get_fmt (gc2145_set_fmt b sensor tf 0 which req).sensor
          (gc2145_set_fmt b sensor tf 0 which req).tryFmt 0 .ACTIVE =
        .ok (gc2145_set_fmt b sensor tf 0 which req).fmt) := by
  cases which with
  | TRY => exact ⟨rfl, rfl, rfl, rfl, fun hx => by cases hx⟩
  | ACTIVE =>
    exact ⟨params_set_allok _ _ h, rfl, rfl, rfl, fun _ => ⟨rfl, rfl, rfl⟩⟩

/-- C2 (witness): the amended theorem applied to the all-success
transport and the concrete 640 by 480 YUYV request. -/
theorem C2_amended_forced_svga_witness :
    (∀ n, 0 ≤ busAllOK.wRet n) ∧
    ((gc2145_set_fmt busAllOK defaultSensor fmtZero 0 .ACTIVE fmtReq640).ret = 0 ∧
     (gc2145_set_fmt busAllOK defaultSensor fmtZero 0 .ACTIVE fmtReq640).fmt.width = 800 ∧
     (gc2145_set_fmt busAllOK defaultSensor fmtZero 0 .ACTIVE fmtReq640).fmt.height = 600 ∧
     (gc2145_set_fmt busAllOK defaultSensor fmtZero 0 .ACTIVE fmtReq640).fmt.code =
       (gc2145_find_pixfmt fmtReq640.code).code ∧
     (WhichFmt.ACTIVE = WhichFmt.ACTIVE →
       (gc2145_set_fmt busAllOK defaultSensor fmtZero 0 .ACTIVE fmtReq640).sensor.fmt =
         (gc2145_set_fmt busAllOK defaultSensor fmtZero 0 .ACTIVE fmtReq640).fmt ∧
       (gc2145_set_fmt busAllOK defaultSensor fmtZero 0 .ACTIVE fmtReq640).sensor.current_mode =
         gc2145_mode_list.getD 2 default ∧
       gc2145_get_fmt (gc2145_set_fmt busAllOK defaultSensor fmtZero 0 .ACTIVE fmtReq640).sensor
           (gc2145_set_fmt busAllOK defaultSensor fmtZero 0 .ACTIVE fmtReq640).tryFmt 0 .ACTIVE =
         .ok (gc2145_set_fmt busAllOK defaultSensor fmtZero 0 .ACTIVE fmtReq640).fmt)) :=
  ⟨fun _ => zero_le_one,
   C2_amended_forced_svga busAllOK defaultSensor fmtZero fmtReq640 .ACTIVE (fun _ => zero_le_one)⟩

/-- C3 (code bug): the expected identifier bytes are 0x21 and 0x45, but
`gc2145_check_chip_id` succeeds (returns 0, no power-down, no clock
disable) when the bytes read back are (0x21, 0x00) — the low byte
mismatching — and even when they are (0x99, 0xF1), because the two
comparisons are joined by `&&` and the low byte is compared against the
register address 0xF1 instead of 0x45.  Only when both comparisons
mismatch does it fail with -ENXIO and power down. -/
theorem C3_chip_id_check_code_bug :
    ((GC2145_CHIP_ID >>> 8) % 256 = 0x21 ∧ GC2145_CHIP_ID % 256 = 0x45) ∧
    ((gc2145_check_chip_id (busChipId 0x21 0x00) defaultSensor).1 = 0 ∧
     (0x00 : Nat) ≠ GC2145_CHIP_ID % 256 ∧
     Event.clkOff ∉ (gc2145_check_chip_id (busChipId 0x21 0x00) defaultSensor).2.1) ∧
    ((gc2145_check_chip_id (busChipId 0x99 0xF1) defaultSensor).1 = 0 ∧
     (0x99 : Nat) ≠ (GC2145_CHIP_ID >>> 8) % 256) ∧
    ((gc2145_check_chip_id (busChipId 0x00 0x00) defaultSensor).1 = -ENXIO_err ∧
     Event.clkOff ∈ (gc2145_check_chip_id (busChipId 0x00 0x00) defaultSensor).2.1) := by
  decide

/-- C4 (code bug): with power_count = 1, `gc2145_s_power(on = 0)` — the
1 to 0 transition — runs the power-ON sequence (`gc2145_set_power_on`:
pwdn pulse ending deasserted, then a reset pulse), never asserts
power-down and never disables the clock; the reference counting itself
works (two ons then one off leaves count 1 with no physical action on
the off). -/
theorem C4_power_off_code_bug :
    ((gc2145_s_power sensorCount1 0).1 = 0 ∧
     (gc2145_s_power sensorCount1 0).2.1.power_count = 0 ∧
     (gc2145_s_power sensorCount1 0).2.2 =
       [.gpioPwdn 1, .sleepUs 100, .gpioPwdn 0, .sleepUs 100,
        .gpioReset 1, .sleepUs 100, .gpioReset 0, .sleepUs 100] ∧
     Event.clkOff ∉ (gc2145_s_power sensorCount1 0).2.2) ∧
    ((gc2145_s_power gc2145_mode_set_default 1).2.1.power_count = 1 ∧
     (gc2145_s_power (gc2145_s_power gc2145_mode_set_default 1).2.1 1).2.1.power_count = 2 ∧
     (gc2145_s_power (gc2145_s_power (gc2145_s_power gc2145_mode_set_default 1).2.1 1).2.1 0).2.1.power_count = 1 ∧
     (gc2145_s_power (gc2145_s_power (gc2145_s_power gc2145_mode_set_default 1).2.1 1).2.1 0).2.2 = []) := by
  decide

/-- C5 (counterexample): `gc2145_enum_frame_size` with pad 1 (an invalid
pad), index 0 and a supported code succeeds with the QVGA frame size
instead of failing with -EINVAL, refuting the claim that EVERY
pad-scoped operation rejects nonzero pads. -/
theorem C5_enum_frame_size_ignores_pad_cex :
    (1 : Nat) ≠ 0 ∧
    gc2145_enum_frame_size 1 0 MEDIA_BUS_FMT_UYVY8_2X8 = .ok (some (320, 240)) ∧
    gc2145_enum_frame_size 1 0 MEDIA_BUS_FMT_UYVY8_2X8 ≠ .error (-EINVAL) := by
  decide

/-- C5 (amended): for every pad other than 0, `enum_mbus_code`,
`get_fmt` and `set_fmt` fail with -EINVAL (and `set_fmt` leaves the
sensor state unchanged), but `enum_frame_size` does not validate the
pad: it behaves identically for every pad value. -/
theorem C5_amended_pad_validation (pad : Nat) (hpad : pad ≠ 0) (idx c : Nat) (b : Bus)
    (sensor : gc2145_dev) (tf req : v4l2_mbus_framefmt) (which : WhichFmt) :
    gc2145_enum_mbus_code pad idx = .error (-EINVAL) ∧
    gc2145_get_fmt sensor tf pad which = .error (-EINVAL) ∧
    (gc2145_set_fmt b sensor tf pad which req).ret = -EINVAL ∧
    (gc2145_set_fmt b sensor tf pad which req).sensor = sensor ∧
    gc2145_enum_frame_size pad idx c = gc2145_enum_frame_size 0 idx c := by
  refine ⟨?_, ?_, ?_, ?_, rfl⟩ <;>
    simp [gc2145_enum_mbus_code, gc2145_get_fmt, gc2145_set_fmt, hpad]

/-- C5 (witness): the amended theorem applied at pad 1 with concrete
arguments. -/
theorem C5_amended_pad_validation_witness :
    (1 : Nat) ≠ 0 ∧
    (gc2145_enum_mbus_code 1 0 = .error (-EINVAL) ∧
     gc2145_get_fmt defaultSensor fmtZero 1 .ACTIVE = .error (-EINVAL) ∧
     (gc2145_set_fmt busAllOK defaultSensor fmtZero 1 .ACTIVE fmtZero).ret = -EINVAL ∧
     (gc2145_set_fmt busAllOK defaultSensor fmtZero 1 .ACTIVE fmtZero).sensor = defaultSensor ∧
     gc2145_enum_frame_size 1 0 0 = gc2145_enum_frame_size 0 0 0) :=
  ⟨by decide, C5_amended_pad_validation 1 (by decide) 0 0 busAllOK defaultSensor fmtZero fmtZero .ACTIVE⟩

/-- C6: `gc2145_enum_frame_size` checks its index only against the
6-entry format catalog, then reads the 4-entry mode catalog at that
index, so for every supported code and index 4 or 5 the bounds check
passes (index < 6) while the mode-table lookup is out of bounds — in
the total embedding `gc2145_mode_list.get? idx = none` and the result
is `.ok none` rather than a frame size. -/
theorem C6_enum_frame_size_oob (pad idx c : Nat)
    (hc : c ∈ gc2145_format_list.map (fun f => f.code))
    (hidx : idx = 4 ∨ idx = 5) :
    idx < gc2145_format_list.length ∧
    gc2145_mode_list.get? idx = none ∧
    gc2145_enum_frame_size pad idx c = .ok none := by
  rcases hidx with h | h <;> subst h <;>
  · simp only [gc2145_format_list, List.map_cons, List.map_nil, List.mem_cons,
      List.not_mem_nil, or_false] at hc
    rcases hc with h | h | h | h | h | h <;> subst h <;>
      exact ⟨by decide, by decide, rfl⟩

/-- C6 (witness): index 4 with the supported UYVY code. -/
theorem C6_enum_frame_size_oob_witness :
    (MEDIA_BUS_FMT_UYVY8_2X8 ∈ gc2145_format_list.map (fun f => f.code) ∧
     ((4 : Nat) = 4 ∨ (4 : Nat) = 5)) ∧
    ((4 : Nat) < gc2145_format_list.length ∧
     gc2145_mode_list.get? 4 = none ∧
     gc2145_enum_frame_size 0 4 MEDIA_BUS_FMT_UYVY8_2X8 = .ok none) :=
  ⟨⟨by decide, Or.inl rfl⟩,
   C6_enum_frame_size_oob 0 4 MEDIA_BUS_FMT_UYVY8_2X8 (by decide) (Or.inl rfl)⟩

/-- C7: for a code absent from the format catalog `gc2145_find_pixfmt`
returns catalog entry 0 (the default) and never fails; for a present
code it returns the first catalog entry bearing that code. -/
theorem C7_find_pixfmt_fallback (code : Nat) :
    (code ∉ gc2145_format_list.map (fun f => f.code) →
      gc2145_find_pixfmt code = gc2145_format_list.getD 0 default) ∧
    (code ∈ gc2145_format_list.map (fun f => f.code) →
      gc2145_format_list.find? (fun f => f.code = code) = some (gc2145_find_pixfmt code)) := by
  constructor
  · intro h
    simp only [gc2145_format_list, List.map_cons, List.map_nil, List.mem_cons,
      List.not_mem_nil, or_false, not_or] at h
    obtain ⟨h1, h2, h3, h4, h5, h6⟩ := h
    have e1 : (decide (MEDIA_BUS_FMT_UYVY8_2X8 = code)) = false :=
      decide_eq_false (fun hc => h1 hc.symm)
    have e2 : (decide (MEDIA_BUS_FMT_VYUY8_2X8 = code)) = false :=
      decide_eq_false (fun hc => h2 hc.symm)
    have e3 : (decide (MEDIA_BUS_FMT_YUYV8_2X8 = code)) = false :=
      decide_eq_false (fun hc => h3 hc.symm)
    have e4 : (decide (MEDIA_BUS_FMT_YVYU8_2X8 = code)) = false :=
      decide_eq_false (fun hc => h4 hc.symm)
    have e5 : (decide (MEDIA_BUS_FMT_RGB565_2X8_BE = code)) = false :=
      decide_eq_false (fun hc => h5 hc.symm)
    have e6 : (decide (MEDIA_BUS_FMT_SBGGR8_1X8 = code)) = false :=
      decide_eq_false (fun hc => h6 hc.symm)
    simp [gc2145_find_pixfmt, gc2145_format_list, List.findIdx_cons, e1, e2, e3, e4, e5, e6]
  · intro h
    simp only [gc2145_format_list, List.map_cons, List.map_nil, List.mem_cons,
      List.not_mem_nil, or_false] at h
    rcases h with h | h | h | h | h | h <;> subst h <;> decide

/-- C7 (witness): the fallback branch at the unsupported code 0x1234
and the exact-match branch at the supported YUYV code. -/
theorem C7_find_pixfmt_fallback_witness :
    ((0x1234 : Nat) ∉ gc2145_format_list.map (fun f => f.code) ∧
     gc2145_find_pixfmt 0x1234 = gc2145_format_list.getD 0 default) ∧
    (MEDIA_BUS_FMT_YUYV8_2X8 ∈ gc2145_format_list.map (fun f => f.code) ∧
     gc2145_format_list.find? (fun f => f.code = MEDIA_BUS_FMT_YUYV8_2X8) =
       some (gc2145_find_pixfmt MEDIA_BUS_FMT_YUYV8_2X8)) :=
  ⟨⟨by decide, (C7_find_pixfmt_fallback 0x1234).1 (by decide)⟩,
   ⟨by decide, (C7_find_pixfmt_fallback MEDIA_BUS_FMT_YUYV8_2X8).2 (by decide)⟩⟩

/-- C8: applying a register program fails fast — if the writes at
non-sentinel positions 0..k-1 succeed and the write at position k fails
(the claim's k-th write, one-based, is position k-1 here), then the
result is the transport's error, the successfully dispatched writes are
exactly the k prior non-sentinel rows in program order, and the
attempted writes stop at the failing row (no write after it, each row
dispatched once — no retry). -/
theorem C8_write_array_fail_fast (b : Bus) (regs : List gc2145_reg) (k : Nat)
    (hk : k < (nonSentinel regs).length)
    (hok : ∀ i, i < k → 0 ≤ b.wRet (b.nw + i))
    (hfail : b.wRet (b.nw + k) < 0) :
    (gc2145_write_array b false regs false).1 = b.wRet (b.nw + k) ∧
    (gc2145_write_array b false regs false).1 < 0 ∧
    wrDispatched (gc2145_write_array b false regs false).2.1 =
      ((nonSentinel regs).take k).map (fun rg => (rg.addr, rg.val)) ∧
    wrAttempts (gc2145_write_array b false regs false).2.1 =
      ((nonSentinel regs).take (k + 1)).map (fun rg => (rg.addr, rg.val)) := by
  have hne : regs ≠ [] := by
    intro h; subst h; simp [nonSentinel] at hk
  obtain ⟨ha, hb, hc⟩ := go_fail regs b k 0 hk hok hfail
  rw [write_array_eq_go b regs hne]
  exact ⟨ha, ha ▸ hfail, hb, hc⟩

/-- C8 (witness): a four-row program (write, delay, write, write) on a
transport failing the second write transaction: one write dispatched,
two attempted, error -5 returned. -/
theorem C8_write_array_fail_fast_witness :
    (1 < (nonSentinel progMixed).length ∧
     (∀ i, i < 1 → 0 ≤ busFailAtSecond.wRet (busFailAtSecond.nw + i)) ∧
     busFailAtSecond.wRet (busFailAtSecond.nw + 1) < 0) ∧
    ((gc2145_write_array busFailAtSecond false progMixed false).1 =
       busFailAtSecond.wRet (busFailAtSecond.nw + 1) ∧
     (gc2145_write_array busFailAtSecond false progMixed false).1 < 0 ∧
     wrDispatched (gc2145_write_array busFailAtSecond false progMixed false).2.1 =
       ((nonSentinel progMixed).take 1).map (fun rg => (rg.addr, rg.val)) ∧
     wrAttempts (gc2145_write_array busFailAtSecond false progMixed false).2.1 =
       ((nonSentinel progMixed).take 2).map (fun rg => (rg.addr, rg.val))) :=
  ⟨⟨by decide, by decide, by decide⟩,
   C8_write_array_fail_fast busFailAtSecond progMixed 1 (by decide) (by decide) (by decide)⟩

/-- C9: sentinel rows (address 0xFF) are never dispatched to the
transport as writes — no attempted write in any program's trace bears
the sentinel address, and a sentinel row at the head of the remaining
program contributes exactly one blocking delay of its encoded
milliseconds — and a nonempty program consisting only of sentinel rows
returns success, produces only the per-row delays, performs zero bus
writes, and blocks for exactly the total encoded delay. -/
theorem C9_sentinel_rows (b : Bus) (regs : List gc2145_reg) :
    (∀ p ∈ wrAttempts (gc2145_write_array b false regs false).2.1,
        p.1 ≠ GC2145_REG_NULL) ∧
    (∀ (b2 : Bus) (rg : gc2145_reg) (rest : List gc2145_reg) (ret0 : Int),
        rg.addr = GC2145_REG_NULL →
        (gc2145_write_array_go b2 (rg :: rest) ret0).2.1 =
          .sleepMs rg.val :: (gc2145_write_array_go b2 rest ret0).2.1) ∧
    ((∀ rg ∈ regs, rg.addr = GC2145_REG_NULL) → regs ≠ [] →
      (gc2145_write_array b false regs false).1 = 0 ∧
      (gc2145_write_array b false regs false).2.1 =
        regs.map (fun rg => Event.sleepMs rg.val) ∧
      wrAttempts (gc2145_write_array b false regs false).2.1 = [] ∧
      sleepMsTotal (gc2145_write_array b false regs false).2.1 =
        (regs.map fun rg => rg.val).sum) := by
  refine ⟨?_, ?_, ?_⟩
  · intro p hp
    by_cases hne : regs = []
    · subst hne; simp [gc2145_write_array, wrAttempts] at hp
    · rw [write_array_eq_go b regs hne] at hp
      exact go_no_sentinel_write regs b 0 p hp
  · intro b2 rg rest ret0 hs
    rw [go_cons_sentinel b2 rg rest ret0 hs]
  · intro hall hne
    rw [write_array_eq_go b regs hne, go_sentinels b regs 0 hall]
    refine ⟨rfl, rfl, ?_, ?_⟩
    · simp [wrAttempts, List.filterMap_map, Function.comp]
    · simp only [sleepMsTotal]
      rw [filterMap_sleep_map]

/-- C9 (witness): the delay-only program (5 ms then 7 ms) performs zero
writes, returns success and sleeps exactly 12 ms in total. -/
theorem C9_sentinel_rows_witness :
    ((∀ rg ∈ progDelayOnly, rg.addr = GC2145_REG_NULL) ∧ progDelayOnly ≠ []) ∧
    ((gc2145_write_array busAllOK false progDelayOnly false).1 = 0 ∧
     (gc2145_write_array busAllOK false progDelayOnly false).2.1 =
       progDelayOnly.map (fun rg => Event.sleepMs rg.val) ∧
     wrAttempts (gc2145_write_array busAllOK false progDelayOnly false).2.1 = [] ∧
     sleepMsTotal (gc2145_write_array busAllOK false progDelayOnly false).2.1 =
       (progDelayOnly.map fun rg => rg.val).sum) :=
  ⟨⟨by decide, by decide⟩,
   (C9_sentinel_rows busAllOK progDelayOnly).2.2 (by decide) (by decide)⟩

/-- C10: on a working transport, `gc2145_s_vflip` with value 1 (resp. 0)
selects page 0, reads the flip-control register 0x17 and writes back the
freshly read byte with exactly bit 1 set (resp. cleared) and every other
bit unchanged, then settles 20 ms; every value other than 0 and 1 fails
with -EINVAL. -/
theorem C10_vflip_rmw (b : Bus) (value : Int)
    (hw0 : 0 ≤ b.wRet b.nw) (hr0 : 0 ≤ b.rRet b.nr) (hw1 : 0 ≤ b.wRet (b.nw + 1)) :
    (value = 1 →
      (gc2145_s_vflip b value).1 = 0 ∧
      (gc2145_s_vflip b value).2.1 =
        [.wr 0xfe 0x00 true, .rd 0x17 (b.rVal b.nr % 256) true,
         .wr 0x17 (b.rVal b.nr % 256 ||| 0x02) true, .sleepMs 20] ∧
      Nat.testBit (b.rVal b.nr % 256 ||| 0x02) 1 = true ∧
      (∀ i, i ≠ 1 → Nat.testBit (b.rVal b.nr % 256 ||| 0x02) i =
        Nat.testBit (b.rVal b.nr % 256) i)) ∧
    (value = 0 →
      (gc2145_s_vflip b value).1 = 0 ∧
      (gc2145_s_vflip b value).2.1 =
        [.wr 0xfe 0x00 true, .rd 0x17 (b.rVal b.nr % 256) true,
         .wr 0x17 (b.rVal b.nr % 256 &&& 0xfd) true, .sleepMs 20] ∧
      Nat.testBit (b.rVal b.nr % 256 &&& 0xfd) 1 = false ∧
      (∀ i, i ≠ 1 → Nat.testBit (b.rVal b.nr % 256 &&& 0xfd) i =
        Nat.testBit (b.rVal b.nr % 256) i)) ∧
    (value ≠ 0 → value ≠ 1 → (gc2145_s_vflip b value).1 = -EINVAL) := by
  have hnw0 : ¬ b.wRet b.nw < 0 := not_lt.mpr hw0
  have hnr0 : ¬ b.rRet b.nr < 0 := not_lt.mpr hr0
  have hnw1 : ¬ b.wRet (b.nw + 1) < 0 := not_lt.mpr hw1
  refine ⟨?_, ?_, ?_⟩
  · intro hv; subst hv
    refine ⟨?_, ?_, ?_, ?_⟩
    · simp [gc2145_s_vflip, gc2145_write_reg, gc2145_read_reg, hnw0, hnr0, hnw1]
    · simp [gc2145_s_vflip, gc2145_write_reg, gc2145_read_reg, hnw0, hnr0, hnw1]
    · rw [Nat.testBit_or, (by decide : Nat.testBit 2 1 = true), Bool.or_true]
    · exact fun i hi => or_two_testBit _ i hi
  · intro hv; subst hv
    refine ⟨?_, ?_, ?_, ?_⟩
    · simp [gc2145_s_vflip, gc2145_write_reg, gc2145_read_reg, hnw0, hnr0, hnw1]
    · simp [gc2145_s_vflip, gc2145_write_reg, gc2145_read_reg, hnw0, hnr0, hnw1]
    · rw [Nat.testBit_and, (by decide : Nat.testBit 253 1 = false), Bool.and_false]
    · exact fun i hi => and_253_testBit _ i (Nat.mod_lt _ (by norm_num)) hi
  · intro hv0 hv1
    simp [gc2145_s_vflip, gc2145_write_reg, gc2145_read_reg, hnw0, hnr0, hv0, hv1]

/-- C10 (witness): setting VFLIP to 1 on a transport reading back 0xA5. -/
theorem C10_vflip_rmw_witness :
    (0 ≤ busReadA5.wRet busReadA5.nw ∧ 0 ≤ busReadA5.rRet busReadA5.nr ∧
     0 ≤ busReadA5.wRet (busReadA5.nw + 1)) ∧
    ((1 : Int) = 1 →
      (gc2145_s_vflip busReadA5 1).1 = 0 ∧
      (gc2145_s_vflip busReadA5 1).2.1 =
        [.wr 0xfe 0x00 true, .rd 0x17 (busReadA5.rVal busReadA5.nr % 256) true,
         .wr 0x17 (busReadA5.rVal busReadA5.nr % 256 ||| 0x02) true, .sleepMs 20] ∧
      Nat.testBit (busReadA5.rVal busReadA5.nr % 256 ||| 0x02) 1 = true ∧
      (∀ i, i ≠ 1 → Nat.testBit (busReadA5.rVal busReadA5.nr % 256 ||| 0x02) i =
        Nat.testBit (busReadA5.rVal busReadA5.nr % 256) i)) :=
  ⟨⟨by decide, by decide, by decide⟩,
   (C10_vflip_rmw busReadA5 1 (by decide) (by decide) (by decide)).1⟩

end GC2145
